import Mathlib

/-!
A verification development for the Telegram chatbot gateway (chatbot.py).

The Python source is shallowly embedded: every handler and loop that the
claims touch is translated into an executable Lean function.  External
collaborators (the OpenAI client, the Telegram HTTP API, the filesystem,
sqlite commits) are modelled as explicit environment records whose fields
say whether each external operation succeeds or raises; a Python function
that can let an exception escape is modelled with an `Except` result,
while a function that catches all its internal exceptions is modelled as
a total function.  JSON result dictionaries (`json.dumps({...})`) are
modelled as ordered field lists `List (String × String)`.
-/

namespace Chatbot

/-- A JSON-object result, as produced by json.dumps of a Python dict:
an ordered list of (field name, rendered value) pairs. -/
def JsonResult : Type := List (String × String)

instance : DecidableEq JsonResult := by
  unfold JsonResult
  infer_instance

/-- Whether a result dictionary carries a field of the given name. -/
def hasField (r : JsonResult) (k : String) : Bool :=
  r.any (fun kv => kv.1 == k)

/-- Python truthiness of an optional numeric argument
(`None` and `0` are falsy). -/
def truthyNum : Option ℚ → Bool
  | none => false
  | some a => !(a == 0)

/-- Python truthiness of an optional string argument
(`None` and the empty string are falsy). -/
def truthyStr : Option String → Bool
  | none => false
  | some s => !(s == "")

/-- Lexicographic order on the underlying character codes, the comparison
sqlite applies to TEXT operands of `BETWEEN` (and what Python string
comparison does for the ASCII dates used here). -/
def charListLe : List Char → List Char → Bool
  | [], _ => true
  | _ :: _, [] => false
  | a :: as, b :: bs =>
    if a.toNat < b.toNat then true
    else if a = b then charListLe as bs else false

/-- String comparison used for `date BETWEEN ? AND ?` on TEXT columns. -/
def strLe (a b : String) : Bool := charListLe a.data b.data

/-! ## Items and expenses tables (domain CRUD handlers) -/

/-- A row of the `items` table (the autoincrement id column is not
consulted by any of the embedded operations and is omitted). -/
structure ItemRow where
  chatid : String
  item : String
  owner : String
  quantity : Int
deriving DecidableEq

/-- A row of the `expenses` table (the autoincrement id column is not
consulted by any of the embedded operations and is omitted). -/
structure ExpenseRow where
  chatid : String
  amount : ℚ
  category : String
  date : String
  description : String
deriving DecidableEq

/-- show_items_list (chatbot.py lines 201-215): selects the rows of the
items table owned by the calling chatid, optionally restricted to one
owner.  `if owner:` is Python truthiness on the optional argument. -/
def show_items_list (owner : Option String) (chatid : String)
    (db : List ItemRow) : List ItemRow :=
  if truthyStr owner then
    db.filter (fun i => i.chatid == chatid && i.owner == owner.getD "")
  else
    db.filter (fun i => i.chatid == chatid)

/-- retrieve_expenses (lines 326-342): four SELECT shapes keyed on which
optional arguments are truthy; every shape filters on `chatid = ?`.
The SELECT projects (amount, category, date, description). -/
def retrieve_expenses (chatid : String)
    (start_date end_date category : Option String)
    (db : List ExpenseRow) : List (ℚ × String × String × String) :=
  List.map (fun e => (e.amount, e.category, e.date, e.description))
    (if truthyStr category && truthyStr start_date && truthyStr end_date then
      db.filter (fun e => e.chatid == chatid && e.category == category.getD ""
        && strLe (start_date.getD "") e.date && strLe e.date (end_date.getD ""))
    else if truthyStr start_date && truthyStr end_date then
      db.filter (fun e => e.chatid == chatid
        && strLe (start_date.getD "") e.date && strLe e.date (end_date.getD ""))
    else if truthyStr category then
      db.filter (fun e => e.chatid == chatid && e.category == category.getD "")
    else
      db.filter (fun e => e.chatid == chatid))

/-- `SELECT DISTINCT` scan: first occurrence of each value, in row order. -/
def distinctScan (l : List String) : List String :=
  l.foldl (fun acc c => if c ∈ acc then acc else acc ++ [c]) []

/-- retrieve_expense_categories (lines 345-354):
`SELECT DISTINCT category FROM expenses WHERE chatid = ?`. -/
def retrieve_expense_categories (chatid : String)
    (db : List ExpenseRow) : List String :=
  distinctScan ((db.filter (fun e => e.chatid == chatid)).map (fun e => e.category))

/-- remove_expenses (lines 371-398).  The two delete shapes are guarded by
Python truthiness (`if amount and date:` / `elif start_date and end_date:`),
so a zero amount or an empty string falls through.  `dbOk` models whether
the DELETE raises sqlite3.Error (in which case the handler returns an
error-status result and the table is unchanged). -/
def remove_expenses (chatid : String) (amount : Option ℚ)
    (date start_date end_date : Option String) (dbOk : Bool)
    (db : List ExpenseRow) : JsonResult × List ExpenseRow :=
  if truthyNum amount && truthyStr date then
    if dbOk then
      ([("status", "Expense removed.")],
        db.filter (fun e =>
          !(e.chatid == chatid && some e.amount == amount && some e.date == date)))
    else ([("status", "ERROR: database error")], db)
  else if truthyStr start_date && truthyStr end_date then
    if dbOk then
      ([("status", "Expenses removed.")],
        db.filter (fun e =>
          !(e.chatid == chatid && strLe (start_date.getD "") e.date
            && strLe e.date (end_date.getD ""))))
    else ([("status", "ERROR: database error")], db)
  else
    ([("status", "ERROR: No amount and date or start_date and end_date provided.")], db)

/-! ## Users table and in-memory sessions (access management handlers) -/

/-- A row of the `users` table restricted to the columns the embedded
access-management handlers read or write. -/
structure UserRow where
  id : String
  user_allowed : Int
  is_admin : Int
deriving DecidableEq

/-- One entry of the in-memory `active_chats` dictionary (conversation
session state).  The worker-thread handle and queue are not data the
embedded handlers read, and are omitted. -/
structure Session where
  message_history : List String
  model : String
  is_admin : Int
  last_contact_timestamp : String
deriving DecidableEq

/-- The shared mutable state the access handlers touch: the users table
and the `active_chats` dictionary (an association list with unique keys,
as a Python dict). -/
structure BotState where
  users : List UserRow
  active_chats : List (String × Session)
deriving DecidableEq

/-- Looking a conversation id up in `active_chats`. -/
def lookupSession (st : BotState) (k : String) : Option Session :=
  (st.active_chats.find? (fun kv => kv.1 == k)).map (fun kv => kv.2)

/-- `UPDATE users SET user_allowed = 0, is_admin = 0` applied to one row. -/
def setUserDisallowed (u : UserRow) : UserRow :=
  { id := u.id, user_allowed := 0, is_admin := 0 }

/-- `UPDATE users SET user_allowed = 1` applied to one row. -/
def setUserAllowed (u : UserRow) : UserRow :=
  { id := u.id, user_allowed := 1, is_admin := u.is_admin }

/-- `active_chats[chatid]["is_admin"] = 1` applied to one session. -/
def setSessionAdmin (s : Session) : Session :=
  { message_history := s.message_history, model := s.model, is_admin := 1,
    last_contact_timestamp := s.last_contact_timestamp }

/-- disallow_chatid_to_chat_with_bot (lines 276-293).  The configured
administrative identity is rejected up front; otherwise the UPDATE zeroes
both flags and, on success, the target session entry is deleted from
`active_chats` (`del` on a dict key).  A sqlite3.Error (`dbOk = false`)
returns an error-status result before the eviction is reached. -/
def disallow_chatid_to_chat_with_bot (adminId : String) (dbOk : Bool)
    (chatid_to_disallow : String) (st : BotState) : JsonResult × BotState :=
  if chatid_to_disallow == adminId then
    ([("status", "ERROR: Cannot disallow the admin user.")], st)
  else if dbOk then
    ([("status", "User disallowed.")],
      { users := st.users.map (fun u =>
          if u.id == chatid_to_disallow then setUserDisallowed u else u),
        active_chats := st.active_chats.filter (fun kv => !(kv.1 == chatid_to_disallow)) })
  else
    ([("status", "ERROR: database error")], st)

/-- allow_chatid_to_chat_with_bot (lines 295-309).  The UPDATE sets only
`user_allowed = 1`; afterwards, if the target currently has an entry in
`active_chats`, that entry gets `is_admin` set to 1 (and nothing else is
touched).  On sqlite3.Error the handler returns before either effect. -/
def allow_chatid_to_chat_with_bot (dbOk : Bool)
    (chatid_to_allow chatid : String) (st : BotState) : JsonResult × BotState :=
  if dbOk then
    ([("status", "User allowed.")],
      { users := st.users.map (fun u =>
          if u.id == chatid_to_allow then setUserAllowed u else u),
        active_chats := st.active_chats.map (fun kv =>
          if kv.1 == chatid_to_allow then (kv.1, setSessionAdmin kv.2) else kv) })
  else
    ([("status", "ERROR: database error")], st)

/-! ## Media-generation handlers -/

/-- Environment of one render_dalle_image invocation: the outcome of each
external operation the handler performs, in program order.  `generate`
carries the revised prompt on success.  (`os.path.join` at lines 96-97 is
pure string concatenation and cannot fail; its dead `except` is omitted.)
`durationStr` stands for `str(t_duration.seconds)`. -/
structure DalleEnv where
  generate : Except String String
  makedirs : Except String Unit
  pathExists : Bool
  fileWrite : Except String Unit
  dbInsert : Except String Unit
  sendPhoto : Except String Nat
  durationStr : String

/-- render_dalle_image (lines 72-134).  Every external operation is
wrapped in try/except, so the handler always returns a result dictionary
(it is a total function).  The Bool records whether the handler opened
the artifact path for writing (which would truncate an existing file). -/
def render_dalle_image (env : DalleEnv) (prompt quality chatid : String) :
    JsonResult × Bool :=
  match env.generate with
  | .error e => ([("prompt", prompt), ("error", e)], false)
  | .ok revised =>
    match env.makedirs with
    | .error e => ([("prompt", prompt), ("error", e)], false)
    | .ok _ =>
      if env.pathExists then
        ([("prompt", prompt), ("error", "Image already exists")], false)
      else
        match env.fileWrite with
        | .error e => ([("prompt", prompt), ("error", e)], true)
        | .ok _ =>
          match env.dbInsert with
          | .error e => ([("prompt", prompt), ("error", e)], true)
          | .ok _ =>
            match env.sendPhoto with
            | .error e =>
              ([("prompt", prompt), ("error", e), ("duration", env.durationStr)], true)
            | .ok code =>
              ([("revised prompt", revised),
                ("status", "Image generated and sent do user. HTTP response="
                  ++ toString code),
                ("duration", env.durationStr)], true)

/-- Environment of one generate_text_to_speech invocation.  `pathExists`
says whether the target `/tmp` artifact path already exists — the source
never consults it.  `sendVoice` (line 163) and `removeFile` (line 166)
are the two operations the source does NOT wrap in try/except. -/
structure TtsEnv where
  speechCreate : Except String Unit
  pathExists : Bool
  fileWrite : Except String Unit
  sendVoice : Except String Nat
  removeFile : Except String Unit
  durationStr : String

/-- generate_text_to_speech (lines 137-169).  The TTS request and the
file save are caught and converted to error-status results; the Telegram
voice send and the temp-file removal are not wrapped, so their exceptions
escape to the caller — hence the `Except` result.  The Bool again records
whether the handler opened the artifact path for writing. -/
def generate_text_to_speech (env : TtsEnv) (chatid text voice : String) :
    Except String JsonResult × Bool :=
  match env.speechCreate with
  | .error e => (.ok [("status", "ERROR: " ++ e), ("duration", "0")], false)
  | .ok _ =>
    match env.fileWrite with
    | .error e => (.ok [("status", "ERROR: " ++ e), ("duration", "0")], true)
    | .ok _ =>
      match env.sendVoice with
      | .error e => (.error e, true)
      | .ok _ =>
        match env.removeFile with
        | .error e => (.error e, true)
        | .ok _ =>
          (.ok [("status", "Generated TTS successfully and sent to user."),
                ("duration", env.durationStr)], true)

/-! ## The conversation worker's turn loop (per_chatid_message_handler) -/

/-- One tool call of a completion result: its correlation id, the tool
name, and whether `json.loads(tool_call.function.arguments)` succeeds. -/
structure ToolCall where
  callId : String
  name : String
  argsValid : Bool
deriving DecidableEq

/-- One entry of a conversation's message history.  Tool-role entries
carry the correlation id and tool name they answer. -/
structure MessageEntry where
  role : String
  content : String
  tool_call_id : Option String := none
  name : Option String := none
deriving DecidableEq

/-- The keys of the `available_functions` registry (lines 1168-1184). -/
def availableFunctionNames : List String :=
  ["render_dalle_image", "generate_text_to_speech", "add_thing_to_items_list",
   "show_items_list", "retrieve_expenses", "retrieve_expense_categories",
   "add_expense", "remove_expenses", "clear_message_history",
   "list_unallowed_users", "list_admin_users", "allow_chatid_to_chat_with_bot",
   "disallow_chatid_to_chat_with_bot", "promote_user_to_admin", "gpt_model"]

/-- The tool names whose if/elif branch of the dispatch loop (lines
447-516) invokes the handler with correctly named arguments.  Absent:
`clear_message_history` (a control signal, handled separately);
`promote_user_to_admin`, whose branch (line 487) passes the keyword
`id_to_promote` to a function whose parameter is `chatid_to_promote`,
raising TypeError; and `disallow_chatid_to_chat_with_bot`, which has no
branch at all, so `function_response` is left over from the previous
iteration (or unbound on the first). -/
def dispatchChainNames : List String :=
  ["render_dalle_image", "generate_text_to_speech", "gpt_model",
   "add_thing_to_items_list", "show_items_list", "list_unallowed_users",
   "list_admin_users", "allow_chatid_to_chat_with_bot", "retrieve_expenses",
   "retrieve_expense_categories", "add_expense", "remove_expenses"]

/-- The handler results the dispatch loop observes: what each non-control
tool handler returns (`.ok` a result string) or lets escape (`.error`,
e.g. generate_text_to_speech with a failing voice send). -/
structure DispatchEnv where
  handlerResult : ToolCall → Except String String

/-- The tool-role entry appended for a call (lines 524-531). -/
def toolEntry (c : ToolCall) (resp : String) : MessageEntry :=
  { role := "tool", content := resp, tool_call_id := some c.callId,
    name := some c.name }

/-- How the for-loop over tool calls ends: it ran to completion, it was
short-circuited by MessageClearedException, or another exception escaped
to the turn's generic except clause. -/
inductive DispatchOutcome where
  | completed
  | cleared
  | failed (msg : String)
deriving DecidableEq

/-- State threaded through the dispatch loop: the conversation's history,
the ids of calls whose handler was actually entered, and the dangling
`function_response` local (consumed by a call that matches no branch). -/
structure DispatchState where
  history : List MessageEntry
  executed : List String
  lastResponse : Option String := none
deriving DecidableEq

/-- The for-loop over `tool_calls` (lines 443-531).  Per call, in source
order: registry lookup (KeyError escapes on an unknown name), argument
parse (json.loads), then the if/elif chain.  A `clear_message_history`
call empties the history and raises MessageClearedException before the
tool entry is appended.  A handler exception escapes and aborts the loop.
A call naming `disallow_chatid_to_chat_with_bot` matches no branch, so
the previous iteration's response is appended for it (UnboundLocalError
if there is none); `promote_user_to_admin` raises TypeError at the call
site.  The exact Python rendering of exception strings is abstracted. -/
def dispatchToolCalls (env : DispatchEnv) :
    List ToolCall → DispatchState → DispatchState × DispatchOutcome
  | [], st => (st, .completed)
  | c :: rest, st =>
    if c.name ∈ availableFunctionNames then
      if c.argsValid then
        if c.name = "clear_message_history" then
          ({ history := [], executed := st.executed ++ [c.callId],
             lastResponse := st.lastResponse }, .cleared)
        else if c.name = "promote_user_to_admin" then
          (st, .failed "TypeError")
        else if c.name ∈ dispatchChainNames then
          match env.handlerResult c with
          | .error e =>
            (⟨st.history, st.executed ++ [c.callId], st.lastResponse⟩, .failed e)
          | .ok resp =>
            dispatchToolCalls env rest
              ⟨st.history ++ [toolEntry c resp], st.executed ++ [c.callId],
               some resp⟩
        else
          match st.lastResponse with
          | none => (st, .failed "UnboundLocalError")
          | some stale =>
            dispatchToolCalls env rest
              ⟨st.history ++ [toolEntry c stale], st.executed, st.lastResponse⟩
      else (st, .failed "JSONDecodeError")
    else (st, .failed ("KeyError: " ++ c.name))

/-- The per-turn parts of the worker's environment: the dispatch
environment, the two completion-statistics INSERTs (lines 428-434 and
538-544), and the follow-up completion (lines 533-536, content or
provider exception). -/
structure TurnEnv where
  dispatch : DispatchEnv
  insert1 : Except String Unit
  insert2 : Except String Unit
  followUp : Except String String

def systemEntry (nowIso : String) : MessageEntry :=
  { role := "system", content := "Current date is: " ++ nowIso }

def userEntry (prompt : String) : MessageEntry :=
  { role := "user", content := prompt }

def assistantEntry (content : String) : MessageEntry :=
  { role := "assistant", content := content }

/-- What one turn leaves behind: the conversation's history, whether the
follow-up completion was requested, the message sent to the user, and
the ids of the tool calls whose handler was entered. -/
structure TurnResult where
  history : List MessageEntry
  followUpRequested : Bool
  sentMessage : Option String
  executed : List String
deriving DecidableEq

/-- The tail of a turn after the dispatch loop ends (lines 532-556):
MessageClearedException sends the fixed notice (line 549) with no
follow-up; any other exception sends the generic failure notice (line
553); both `continue` without appending an assistant entry.  On normal
completion the follow-up completion is requested; its failure (or its
statistics INSERT failing) takes the generic failure path, otherwise the
follow-up reply is appended and sent. -/
def turnFromDispatch (env : TurnEnv) (d : DispatchState × DispatchOutcome) :
    TurnResult :=
  match d.2 with
  | .cleared =>
    ⟨d.1.history, false, some "Message history has been cleared!", d.1.executed⟩
  | .failed e =>
    ⟨d.1.history, false, some ("...failed. Error: " ++ e), d.1.executed⟩
  | .completed =>
    match env.followUp with
    | .error e =>
      ⟨d.1.history, true, some ("...failed. Error: " ++ e), d.1.executed⟩
    | .ok content2 =>
      match env.insert2 with
      | .error e =>
        ⟨d.1.history, true, some ("...failed. Error: " ++ e), d.1.executed⟩
      | .ok _ =>
        ⟨d.1.history ++ [assistantEntry content2], true, some content2,
         d.1.executed⟩

/-- One iteration of per_chatid_message_handler (lines 412-556) after the
first completion result is in hand: append the date-stamping system entry
and the user prompt, persist the completion statistics, and — when the
result carries tool calls (`if tool_calls:`) — append the assistant's raw
reply, run the dispatch loop, and finish the turn per the loop's
outcome. -/
def processTurn (env : TurnEnv) (hist0 : List MessageEntry)
    (nowIso prompt assistantContent : String)
    (toolCalls : List ToolCall) : TurnResult :=
  match env.insert1 with
  | .error e =>
    ⟨hist0 ++ [systemEntry nowIso, userEntry prompt], false,
     some ("...failed. Error: " ++ e), []⟩
  | .ok _ =>
    match toolCalls with
    | [] =>
      ⟨hist0 ++ [systemEntry nowIso, userEntry prompt,
         assistantEntry assistantContent], false, some assistantContent, []⟩
    | c :: rest =>
      turnFromDispatch env (dispatchToolCalls env.dispatch (c :: rest)
        ⟨hist0 ++ [systemEntry nowIso, userEntry prompt,
           assistantEntry assistantContent], [], none⟩)

/-! ## Startup schema migration (connect_to_database, lines 558-666) -/

/-- A row of the users table as the migration sequence sees it (columns
that no migration statement reads or writes are omitted; a column that
does not exist yet reads as its type's default). -/
structure MigUserRow where
  id : String
  nickname : String
  user_allowed : Int
  is_admin : Int
deriving DecidableEq

/-- The store state the migration sequence manipulates: the committed
schema version (PRAGMA user_version) and, per table, its column list
(`none` while the table does not exist).  Only the users table's rows
are consulted by a migration statement. -/
structure MigStore where
  user_version : Nat
  usersCols : Option (List String)
  usersRows : List MigUserRow
  itemsCols : Option (List String)
  imagesCols : Option (List String)
  expensesCols : Option (List String)
  completionsCols : Option (List String)
deriving DecidableEq

/-- `CREATE TABLE`: fails if the table already exists. -/
def createTable (cur : Option (List String)) (cols : List String) :
    Except String (Option (List String)) :=
  match cur with
  | some _ => .error "table already exists"
  | none => .ok (some cols)

/-- `ALTER TABLE ... ADD COLUMN`: fails on a missing table or a
duplicate column name. -/
def addColumn (cur : Option (List String)) (c : String) :
    Except String (Option (List String)) :=
  match cur with
  | none => .error "no such table"
  | some cs =>
    if c ∈ cs then .error ("duplicate column name: " ++ c)
    else .ok (some (cs ++ [c]))

/-- `ALTER TABLE ... RENAME COLUMN a TO b`: fails on a missing table or
column. -/
def renameColumn (cur : Option (List String)) (a b : String) :
    Except String (Option (List String)) :=
  match cur with
  | none => .error "no such table"
  | some cs =>
    if a ∈ cs then .ok (some (cs.map (fun x => if x = a then b else x)))
    else .error "no such column"

/-- Statement-sequencing with sqlite commit semantics: in the python
sqlite3 module each DDL statement takes effect as soon as it executes,
so when a later statement of the same block raises, the earlier
statements' effects are already durable.  An error stops the run and
keeps the store as committed so far. -/
def execStmt (r : MigStore × Option String)
    (f : MigStore → Except String MigStore) : MigStore × Option String :=
  match r with
  | (s, some e) => (s, some e)
  | (s, none) =>
    match f s with
    | .ok s2 => (s2, none)
    | .error e => (s, some e)

/-- Migration block gating: the source tests the local `user_version`
variable, which always equals the committed PRAGMA value because each
block rewrites the PRAGMA before the next test, so the block at stage n
runs exactly when the committed version is n. -/
def migBlock (n : Nat) (body : MigStore × Option String → MigStore × Option String)
    (r : MigStore × Option String) : MigStore × Option String :=
  match r with
  | (s, some e) => (s, some e)
  | (s, none) => if s.user_version = n then body (s, none) else (s, none)

def migSetVersion (n : Nat) (s : MigStore) : Except String MigStore :=
  .ok { s with user_version := n }

/-- Block for `user_version == 0` (lines 575-598): create users, items
and images; seed the administrative identity as allowed (the fresh users
table is empty, so the existence probe at line 589 finds nothing);
advance to version 1. -/
def migV0 (adminId : String) (r : MigStore × Option String) :
    MigStore × Option String :=
  let r := execStmt r (fun s => do
    let u ← createTable s.usersCols
      ["id", "first_name", "last_name", "nickname", "first_contact", "user_allowed"]
    .ok { s with usersCols := u })
  let r := execStmt r (fun s => do
    let u ← createTable s.itemsCols ["id", "chatid", "item", "owner", "quantity"]
    .ok { s with itemsCols := u })
  let r := execStmt r (fun s => do
    let u ← createTable s.imagesCols
      ["id", "chatid", "image_filename", "timestamp_created", "timestamp_deleted",
       "prompt", "revised_prompt"]
    .ok { s with imagesCols := u })
  let r := execStmt r (fun s =>
    if s.usersRows.any (fun u => u.id == adminId) then .ok s
    else .ok { s with usersRows := s.usersRows ++ [⟨adminId, "admin", 1, 0⟩] })
  execStmt r (migSetVersion 1)

/-- Block for `user_version == 1` (lines 600-616): rename the first
contact column, add the last-contact and admin-flag columns, promote the
administrative identity, advance to version 2. -/
def migV1 (adminId : String) (r : MigStore × Option String) :
    MigStore × Option String :=
  let r := execStmt r (fun s => do
    let u ← renameColumn s.usersCols "first_contact" "first_contact_timestamp"
    .ok { s with usersCols := u })
  let r := execStmt r (fun s => do
    let u ← addColumn s.usersCols "last_contact_timestamp"
    .ok { s with usersCols := u })
  let r := execStmt r (fun s => do
    let u ← addColumn s.usersCols "is_admin"
    .ok { s with usersCols := u })
  let r := execStmt r (fun s =>
    .ok { s with usersRows := s.usersRows.map (fun u =>
      if u.id == adminId then { u with is_admin := 1 } else u) })
  execStmt r (migSetVersion 2)

/-- Block for `user_version == 2` (lines 618-628): create the expenses
table, advance to version 3. -/
def migV2 (r : MigStore × Option String) : MigStore × Option String :=
  let r := execStmt r (fun s => do
    let u ← createTable s.expensesCols
      ["id", "chatid", "amount", "category", "date", "description"]
    .ok { s with expensesCols := u })
  execStmt r (migSetVersion 3)

/-- Block for `user_version == 3` (lines 630-650): add the usage-counter
columns to users, create the completions table, advance to version 4. -/
def migV3 (r : MigStore × Option String) : MigStore × Option String :=
  let r := execStmt r (fun s => do
    let u ← addColumn s.usersCols "total_completion_tokens"
    .ok { s with usersCols := u })
  let r := execStmt r (fun s => do
    let u ← addColumn s.usersCols "total_prompt_tokens"
    .ok { s with usersCols := u })
  let r := execStmt r (fun s => do
    let u ← addColumn s.usersCols "total_images"
    .ok { s with usersCols := u })
  let r := execStmt r (fun s => do
    let u ← createTable s.completionsCols
      ["id", "chatid", "completion_id", "completion_created", "completion_model",
       "completion_response", "prompt_tokens", "completion_tokens"]
    .ok { s with completionsCols := u })
  execStmt r (migSetVersion 4)

/-- Block for `user_version == 4` (lines 652-664): add the finish-reason
column, then execute `ALTER TABLE completions ALTER COLUMN
completion_response TEXT` — after `ALTER TABLE name`, sqlite's grammar
accepts only RENAME, ADD or DROP, so this statement is rejected by the
parser with a syntax error, which propagates out of connect_to_database;
the version statement advancing to 5 is never reached. -/
def migV4 (r : MigStore × Option String) : MigStore × Option String :=
  let r := execStmt r (fun s => do
    let u ← addColumn s.completionsCols "finish_reason"
    .ok { s with completionsCols := u })
  let r := execStmt r (fun _ => .error "near ALTER: syntax error")
  execStmt r (migSetVersion 5)

/-- connect_to_database (lines 558-666): read the committed version, run
the gated migration blocks in order.  The result carries the committed
store plus the first uncaught sqlite error, if any (it aborts startup). -/
def connect_to_database (adminId : String) (s : MigStore) :
    MigStore × Option String :=
  migBlock 4 migV4
    (migBlock 3 migV3
      (migBlock 2 migV2
        (migBlock 1 (migV1 adminId)
          (migBlock 0 (migV0 adminId) (s, none)))))

/-! ## Maintenance sweeper (maintenance_tasks, lines 740-772) -/

/-- A row of the `images` table as the sweeper sees it. -/
structure ImageRow where
  id : Nat
  chatid : String
  image_filename : String
  timestamp_deleted : Option String
deriving DecidableEq

def IMAGES_TO_KEEP_PER_CHATID : Nat := 10

instance imageRowLeDecidable :
    DecidableRel (fun a b : ImageRow => a.id ≤ b.id) :=
  fun a b => Nat.decLe a.id b.id

instance imageRowLeTotal : IsTotal ImageRow (fun a b : ImageRow => a.id ≤ b.id) :=
  ⟨fun a b => Nat.le_total a.id b.id⟩

instance imageRowLeTrans : IsTrans ImageRow (fun a b : ImageRow => a.id ≤ b.id) :=
  ⟨fun _ _ _ => Nat.le_trans⟩

/-- The rows the sweep's initial SELECT returns (timestamp_deleted IS
NULL). -/
def nonDeletedImages (db : List ImageRow) : List ImageRow :=
  db.filter (fun r => r.timestamp_deleted.isNone)

/-- `chatid_images` for one conversation (line 750). -/
def chatidImagesOf (images : List ImageRow) (c : String) : List ImageRow :=
  images.filter (fun r => r.chatid == c)

/-- The rows the sweep tries to remove for one conversation (lines
751-756): when the conversation holds more than the retention count of
non-deleted rows, the smallest-id ones beyond the count, taken from the
id-sorted list. -/
def imagesToRemove (images : List ImageRow) (c : String) : List ImageRow :=
  if IMAGES_TO_KEEP_PER_CHATID < (chatidImagesOf images c).length then
    ((chatidImagesOf images c).insertionSort (fun a b => a.id ≤ b.id)).take
      ((chatidImagesOf images c).length - IMAGES_TO_KEEP_PER_CHATID)
  else []

/-- `UPDATE images SET timestamp_deleted = ? WHERE id = ?` applied to
the row. -/
def markDeleted (now : String) (r : ImageRow) : ImageRow :=
  { id := r.id, chatid := r.chatid, image_filename := r.image_filename,
    timestamp_deleted := some now }

/-- One image-retention pass of maintenance_tasks (lines 743-772),
denotationally: the SELECT snapshot is taken before the loops, every
loop iteration touches only its own row (one os.remove and one UPDATE
keyed by the row id), and distinct conversations own disjoint row sets,
so the pass equals the pointwise update: a row is soft-deleted exactly
when it is among its conversation's excess rows, its file removal
succeeds (`removeOk`), and its UPDATE commits (`updateOk`); a failed
removal is logged and `continue`s, skipping only that row's UPDATE, and
a failed UPDATE is logged, neither aborting the remaining iterations. -/
def sweepImagesOnce (removeOk updateOk : Nat → Bool) (now : String)
    (db : List ImageRow) : List ImageRow :=
  db.map (fun r =>
    if decide (r ∈ imagesToRemove (nonDeletedImages db) r.chatid)
        && removeOk r.id && updateOk r.id then
      markDeleted now r
    else r)

instance exceptDecEq {ε α : Type} [DecidableEq ε] [DecidableEq α] :
    DecidableEq (Except ε α) := fun x y =>
  match x, y with
  | .ok a, .ok b =>
    if h : a = b then .isTrue (by rw [h])
    else .isFalse (fun hc => by cases hc; exact h rfl)
  | .error a, .error b =>
    if h : a = b then .isTrue (by rw [h])
    else .isFalse (fun hc => by cases hc; exact h rfl)
  | .ok _, .error _ => .isFalse (fun hc => Except.noConfusion hc)
  | .error _, .ok _ => .isFalse (fun hc => Except.noConfusion hc)

/-! ## Helper lemmas on association lists -/

theorem find?_filter_not_key (l : List (String × Session)) (t : String) :
    (l.filter (fun kv => !(kv.1 == t))).find? (fun kv => kv.1 == t) = none := by
  apply List.find?_eq_none.mpr
  intro kv hkv
  rcases List.mem_filter.mp hkv with ⟨_, hp⟩
  simp only [Bool.not_eq_true'] at hp
  simp [hp]

theorem find?_filter_other_key (l : List (String × Session)) (t k : String)
    (h : k ≠ t) :
    (l.filter (fun kv => !(kv.1 == t))).find? (fun kv => kv.1 == k)
      = l.find? (fun kv => kv.1 == k) := by
  induction l with
  | nil => rfl
  | cons a l ih =>
    cases hb : (a.1 == t) with
    | true =>
      have hat : a.1 = t := eq_of_beq hb
      have hak : (a.1 == k) = false := by
        rw [hat]
        exact beq_eq_false_iff_ne.mpr (fun hc => h hc.symm)
      rw [List.filter_cons, if_neg (by simp [hb]), ih,
        @List.find?_cons_of_neg _ (fun kv => kv.1 == k) a l (by simp [hak])]
    | false =>
      rw [List.filter_cons, if_pos (by simp [hb])]
      cases hk : (a.1 == k) with
      | true =>
        rw [@List.find?_cons_of_pos _ (fun kv => kv.1 == k) a _ hk,
          @List.find?_cons_of_pos _ (fun kv => kv.1 == k) a l hk]
      | false =>
        rw [@List.find?_cons_of_neg _ (fun kv => kv.1 == k) a _ (by simp [hk]),
          @List.find?_cons_of_neg _ (fun kv => kv.1 == k) a l (by simp [hk])]
        exact ih

theorem find?_map_session_upd_self (l : List (String × Session)) (t : String) :
    ((l.map (fun kv =>
        if kv.1 == t then (kv.1, setSessionAdmin kv.2) else kv)).find?
      (fun kv => kv.1 == t))
    = (l.find? (fun kv => kv.1 == t)).map
        (fun kv => (kv.1, setSessionAdmin kv.2)) := by
  induction l with
  | nil => rfl
  | cons a l ih =>
    cases hb : (a.1 == t) with
    | true =>
      rw [List.map_cons, if_pos hb,
        @List.find?_cons_of_pos _ (fun kv => kv.1 == t)
          (a.1, setSessionAdmin a.2) _ hb,
        @List.find?_cons_of_pos _ (fun kv => kv.1 == t) a l hb]
      rfl
    | false =>
      rw [List.map_cons, if_neg (by simp [hb]),
        @List.find?_cons_of_neg _ (fun kv => kv.1 == t) a _ (by simp [hb]),
        @List.find?_cons_of_neg _ (fun kv => kv.1 == t) a l (by simp [hb])]
      exact ih

theorem find?_map_session_upd_other (l : List (String × Session)) (t k : String)
    (h : k ≠ t) :
    ((l.map (fun kv =>
        if kv.1 == t then (kv.1, setSessionAdmin kv.2) else kv)).find?
      (fun kv => kv.1 == k))
    = l.find? (fun kv => kv.1 == k) := by
  induction l with
  | nil => rfl
  | cons a l ih =>
    cases hb : (a.1 == t) with
    | true =>
      have hat : a.1 = t := eq_of_beq hb
      have hak : (a.1 == k) = false := by
        rw [hat]
        exact beq_eq_false_iff_ne.mpr (fun hc => h hc.symm)
      rw [List.map_cons, if_pos hb,
        @List.find?_cons_of_neg _ (fun kv => kv.1 == k)
          (a.1, setSessionAdmin a.2) _ (by simp [hak]),
        @List.find?_cons_of_neg _ (fun kv => kv.1 == k) a l (by simp [hak])]
      exact ih
    | false =>
      rw [List.map_cons, if_neg (by simp [hb])]
      cases hk : (a.1 == k) with
      | true =>
        rw [@List.find?_cons_of_pos _ (fun kv => kv.1 == k) a _ hk,
          @List.find?_cons_of_pos _ (fun kv => kv.1 == k) a l hk]
      | false =>
        rw [@List.find?_cons_of_neg _ (fun kv => kv.1 == k) a _ (by simp [hk]),
          @List.find?_cons_of_neg _ (fun kv => kv.1 == k) a l (by simp [hk])]
        exact ih

theorem map_session_upd_of_absent (l : List (String × Session)) (t : String)
    (h : l.find? (fun kv => kv.1 == t) = none) :
    l.map (fun kv =>
      if kv.1 == t then (kv.1, setSessionAdmin kv.2) else kv) = l := by
  induction l with
  | nil => rfl
  | cons a l ih =>
    rw [List.find?_eq_none] at h
    have ha : ¬(a.1 == t) = true := h a (List.mem_cons_self a l)
    have ht : ∀ x ∈ l, ¬(x.1 == t) = true := fun x hx => h x (List.mem_cons_of_mem a hx)
    simp only [List.map_cons, if_neg ha]
    rw [ih (List.find?_eq_none.mpr ht)]

/-! ## Claim C3 -/

/-- A store that has never been opened: version 0, no tables. -/
def freshMigStore : MigStore := ⟨0, none, [], none, none, none, none⟩

/-- Claim C3 (code bug evidence): the migration sequence never completes.
On a fresh store the chain runs through versions 0-3, but the version-4
block executes an `ALTER TABLE ... ALTER COLUMN` statement that sqlite
rejects, so startup aborts with the committed version still 4; on the
next startup the same block runs again (it is not skipped, contradicting
the claim that each applied step advances the version and commits) and
fails again, leaving the store unchanged. -/
theorem connect_to_database_stuck_at_v4 :
    (connect_to_database "adm" freshMigStore).2 = some "near ALTER: syntax error"
  ∧ (connect_to_database "adm" freshMigStore).1.user_version = 4
  ∧ (connect_to_database "adm"
      (connect_to_database "adm" freshMigStore).1).2.isSome = true
  ∧ (connect_to_database "adm"
      (connect_to_database "adm" freshMigStore).1).1
      = (connect_to_database "adm" freshMigStore).1 := by decide

/-! ## Claim C5 -/

/-- Claim C5: disallow_chatid_to_chat_with_bot rejects the configured
administrative identity with an error result and leaves the state fully
unchanged, for every caller; for any other target (when the UPDATE
commits) it zeroes user_allowed and is_admin on the target's user rows,
keeps every other user row, deletes the target's in-memory session entry,
and leaves every other session entry untouched. -/
theorem disallow_admin_guard_and_effects (adminId target : String)
    (dbOk : Bool) (st : BotState) :
    (target = adminId →
      disallow_chatid_to_chat_with_bot adminId dbOk target st
        = ([("status", "ERROR: Cannot disallow the admin user.")], st))
  ∧ (target ≠ adminId → dbOk = true →
      ((disallow_chatid_to_chat_with_bot adminId dbOk target st).1
          = [("status", "User disallowed.")])
    ∧ (∀ u ∈ st.users, u.id = target →
        setUserDisallowed u
          ∈ (disallow_chatid_to_chat_with_bot adminId dbOk target st).2.users)
    ∧ (∀ u ∈ st.users, u.id ≠ target →
        u ∈ (disallow_chatid_to_chat_with_bot adminId dbOk target st).2.users)
    ∧ lookupSession
        (disallow_chatid_to_chat_with_bot adminId dbOk target st).2 target = none
    ∧ (∀ k, k ≠ target →
        lookupSession (disallow_chatid_to_chat_with_bot adminId dbOk target st).2 k
          = lookupSession st k)) := by
  constructor
  · intro h
    subst h
    simp [disallow_chatid_to_chat_with_bot]
  · intro hne hdb
    subst hdb
    have hbeq : (target == adminId) = false := beq_eq_false_iff_ne.mpr hne
    refine ⟨?_, ?_, ?_, ?_, ?_⟩
    · simp [disallow_chatid_to_chat_with_bot, hbeq]
    · intro u hu hid
      simp only [disallow_chatid_to_chat_with_bot, hbeq]
      simp only [Bool.false_eq_true, if_false, if_true]
      have := List.mem_map_of_mem (fun u : UserRow =>
        if u.id == target then setUserDisallowed u else u) hu
      simpa [hid] using this
    · intro u hu hid
      simp only [disallow_chatid_to_chat_with_bot, hbeq]
      simp only [Bool.false_eq_true, if_false, if_true]
      have := List.mem_map_of_mem (fun u : UserRow =>
        if u.id == target then setUserDisallowed u else u) hu
      have hne2 : (u.id == target) = false := beq_eq_false_iff_ne.mpr hid
      simpa [hne2] using this
    · simp [disallow_chatid_to_chat_with_bot, hbeq, lookupSession,
        find?_filter_not_key]
    · intro k hk
      simp [disallow_chatid_to_chat_with_bot, hbeq, lookupSession,
        find?_filter_other_key _ _ _ hk]

/-- A concrete state for the C5 witness: two allowed users, one live
session for the user about to be disallowed. -/
def c5state : BotState :=
  ⟨[⟨"7", 1, 0⟩, ⟨"9", 1, 1⟩], [("9", ⟨["hello"], "gpt-3.5-turbo-0125", 0, "T0"⟩)]⟩

/-- Witness for C5 at a concrete input: disallowing user 9 (admin id 7)
evicts session 9 and keeps user 7 untouched. -/
theorem disallow_admin_guard_witness :
    ("9" : String) ≠ "7"
  ∧ lookupSession (disallow_chatid_to_chat_with_bot "7" true "9" c5state).2 "9"
      = none :=
  ⟨by decide,
    ((disallow_admin_guard_and_effects "7" "9" true c5state).2
      (by decide) rfl).2.2.2.1⟩

/-! ## Claim C6 -/

/-- Claim C6 (amended): the delete branches of remove_expenses are
selected by Python truthiness, not mere presence.  When amount and date
are both truthy and the DELETE commits, exactly the caller's rows
matching the pair are removed; when that guard fails and both range ends
are truthy, exactly the caller's rows in the range are removed; when
neither guard holds the declared error result is returned and the table
is untouched. -/
theorem remove_expenses_branch_spec (chatid : String) (amount : Option ℚ)
    (date sd ed : Option String) (dbOk : Bool) (db : List ExpenseRow) :
    (truthyNum amount = true → truthyStr date = true → dbOk = true →
      remove_expenses chatid amount date sd ed dbOk db
        = ([("status", "Expense removed.")],
           db.filter (fun e =>
             !(e.chatid == chatid && some e.amount == amount
               && some e.date == date))))
  ∧ ((truthyNum amount && truthyStr date) = false →
      truthyStr sd = true → truthyStr ed = true → dbOk = true →
      remove_expenses chatid amount date sd ed dbOk db
        = ([("status", "Expenses removed.")],
           db.filter (fun e =>
             !(e.chatid == chatid && strLe (sd.getD "") e.date
               && strLe e.date (ed.getD "")))))
  ∧ ((truthyNum amount && truthyStr date) = false →
      (truthyStr sd && truthyStr ed) = false →
      remove_expenses chatid amount date sd ed dbOk db
        = ([("status",
             "ERROR: No amount and date or start_date and end_date provided.")],
           db)) := by
  refine ⟨?_, ?_, ?_⟩
  · intro h1 h2 h3
    subst h3
    simp [remove_expenses, h1, h2]
  · intro h1 h2 h3 h4
    subst h4
    simp [remove_expenses, h1, h2, h3]
  · intro h1 h2
    simp [remove_expenses, h1, h2]

/-- A zero-amount expense row owned by conversation c1. -/
def c6row : ExpenseRow := ⟨"c1", 0, "misc", "2024-03-01", "zero dollar expense"⟩

/-- Claim C6 counterexample: both amount and date are provided
(amount = 0, the row's exact values), yet remove_expenses takes the
missing-arguments error branch and deletes nothing, because Python
truthiness treats the provided 0 as absent. -/
theorem remove_expenses_zero_amount_counterexample :
    remove_expenses "c1" (some 0) (some "2024-03-01") none none true [c6row]
      = ([("status",
           "ERROR: No amount and date or start_date and end_date provided.")],
         [c6row])
  ∧ c6row.chatid = "c1" ∧ c6row.amount = 0 ∧ c6row.date = "2024-03-01" := by
  decide

/-- Witness for C6 at concrete inputs: a truthy (amount, date) pair
deletes exactly the matching row of the caller. -/
theorem remove_expenses_branch_witness :
    truthyNum (some 12) = true
  ∧ remove_expenses "c1" (some 12) (some "2024-03-01") none none true
      [⟨"c1", 12, "coffee", "2024-03-01", "latte"⟩,
       ⟨"c1", 5, "coffee", "2024-03-02", "drip"⟩]
      = ([("status", "Expense removed.")],
         [⟨"c1", 5, "coffee", "2024-03-02", "drip"⟩]) := by
  refine ⟨by decide, ?_⟩
  rw [(remove_expenses_branch_spec "c1" (some 12) (some "2024-03-01") none none
    true
    [⟨"c1", 12, "coffee", "2024-03-01", "latte"⟩,
     ⟨"c1", 5, "coffee", "2024-03-02", "drip"⟩]).1 (by decide) (by decide) rfl]
  decide

/-! ## Claim C10 -/

/-- Claim C10: allow_chatid_to_chat_with_bot (when the UPDATE commits)
sets user_allowed = 1 on the target's user rows without touching ids or
admin flags, keeps every other user row; and if the target currently has
an in-memory session, that session's is_admin flag is set to 1 with every
other session field preserved, while all other sessions — and, when the
target has no session, the whole session map — are untouched. -/
theorem allow_sets_session_admin_flag (dbOk : Bool) (target caller : String)
    (st : BotState) (h : dbOk = true) :
    ((allow_chatid_to_chat_with_bot dbOk target caller st).1
        = [("status", "User allowed.")])
  ∧ ((allow_chatid_to_chat_with_bot dbOk target caller st).2.users.map
        (fun u => u.id) = st.users.map (fun u => u.id))
  ∧ ((allow_chatid_to_chat_with_bot dbOk target caller st).2.users.map
        (fun u => u.is_admin) = st.users.map (fun u => u.is_admin))
  ∧ (∀ u ∈ st.users, u.id = target →
      setUserAllowed u
        ∈ (allow_chatid_to_chat_with_bot dbOk target caller st).2.users)
  ∧ (∀ u ∈ st.users, u.id ≠ target →
      u ∈ (allow_chatid_to_chat_with_bot dbOk target caller st).2.users)
  ∧ (∀ s, lookupSession st target = some s →
      lookupSession (allow_chatid_to_chat_with_bot dbOk target caller st).2 target
        = some (setSessionAdmin s))
  ∧ (∀ k, k ≠ target →
      lookupSession (allow_chatid_to_chat_with_bot dbOk target caller st).2 k
        = lookupSession st k)
  ∧ (lookupSession st target = none →
      (allow_chatid_to_chat_with_bot dbOk target caller st).2.active_chats
        = st.active_chats) := by
  subst h
  refine ⟨?_, ?_, ?_, ?_, ?_, ?_, ?_, ?_⟩
  · simp [allow_chatid_to_chat_with_bot]
  · simp only [allow_chatid_to_chat_with_bot, if_true, List.map_map]
    apply List.map_congr_left
    intro u _
    by_cases hu : u.id = target <;> simp [hu, Function.comp, setUserAllowed]
  · simp only [allow_chatid_to_chat_with_bot, if_true, List.map_map]
    apply List.map_congr_left
    intro u _
    by_cases hu : u.id = target <;> simp [hu, Function.comp, setUserAllowed]
  · intro u hu hid
    simp only [allow_chatid_to_chat_with_bot, if_true]
    have := List.mem_map_of_mem (fun u : UserRow =>
      if u.id == target then setUserAllowed u else u) hu
    simpa [hid] using this
  · intro u hu hid
    simp only [allow_chatid_to_chat_with_bot, if_true]
    have := List.mem_map_of_mem (fun u : UserRow =>
      if u.id == target then setUserAllowed u else u) hu
    have hne2 : (u.id == target) = false := beq_eq_false_iff_ne.mpr hid
    simpa [hne2] using this
  · intro s hs
    simp only [lookupSession] at hs
    simp only [allow_chatid_to_chat_with_bot, if_true, lookupSession,
      find?_map_session_upd_self]
    rcases hfind : st.active_chats.find? (fun kv => kv.1 == target) with _ | kv
    · rw [hfind] at hs
      exact absurd hs (by simp)
    · rw [hfind] at hs ⊢
      have hkv : kv.2 = s := by simpa using hs
      simp [hkv]
  · intro k hk
    simp only [allow_chatid_to_chat_with_bot, if_true, lookupSession]
    rw [find?_map_session_upd_other _ _ _ hk]
  · intro habs
    simp only [lookupSession, Option.map_eq_none'] at habs
    simp only [allow_chatid_to_chat_with_bot, if_true]
    exact map_session_upd_of_absent _ _ habs

/-- A concrete state for the C10 witness: the target user 9 has a live
session with is_admin 0. -/
def c10state : BotState :=
  ⟨[⟨"9", 0, 0⟩], [("9", ⟨["hi"], "gpt-3.5-turbo-0125", 0, "T1"⟩)]⟩

/-- Witness for C10 at a concrete input: allowing user 9 flips the live
session's is_admin flag to 1 and preserves its other fields. -/
theorem allow_sets_session_admin_flag_witness :
    (true : Bool) = true
  ∧ lookupSession (allow_chatid_to_chat_with_bot true "9" "7" c10state).2 "9"
      = some ⟨["hi"], "gpt-3.5-turbo-0125", 1, "T1"⟩ :=
  ⟨rfl,
    (allow_sets_session_admin_flag true "9" "7" c10state rfl).2.2.2.2.2.1
      ⟨["hi"], "gpt-3.5-turbo-0125", 0, "T1"⟩ (by decide)⟩

/-! ## Claim C4 -/

/-- Claim C4 (amended): the embedded handlers return structured JSON
results and catch their internal failures, with two exceptions visible
in the source.  render_dalle_image is total (every external operation is
wrapped) but its error results carry an `error` field, not a `status`
field; generate_text_to_speech catches the TTS request and the file save,
yet an exception from the outbound voice send or the temp-file removal
propagates to the calling worker — and only from those two operations.
The access and expense handlers always return a status result. -/
theorem handlers_result_discipline :
    (∀ env prompt quality chatid,
      hasField (render_dalle_image env prompt quality chatid).1 "status" = true
      ∨ hasField (render_dalle_image env prompt quality chatid).1 "error" = true)
  ∧ (∀ env chatid text voice e,
      (generate_text_to_speech env chatid text voice).1 = .error e →
      env.sendVoice = .error e ∨ env.removeFile = .error e)
  ∧ (∀ env chatid text voice n,
      env.sendVoice = .ok n → env.removeFile = .ok () →
      ∃ r, (generate_text_to_speech env chatid text voice).1 = .ok r
        ∧ hasField r "status" = true)
  ∧ (∀ adminId dbOk target st,
      hasField (disallow_chatid_to_chat_with_bot adminId dbOk target st).1
        "status" = true)
  ∧ (∀ dbOk target caller st,
      hasField (allow_chatid_to_chat_with_bot dbOk target caller st).1
        "status" = true)
  ∧ (∀ chatid amount date sd ed dbOk db,
      hasField (remove_expenses chatid amount date sd ed dbOk db).1
        "status" = true) := by
  refine ⟨?_, ?_, ?_, ?_, ?_, ?_⟩
  · intro env prompt quality chatid
    rcases env with ⟨g, mk, pe, fw, dbi, sp, d⟩
    cases g <;> cases mk <;> cases pe <;> cases fw <;> cases dbi <;> cases sp <;>
      simp [render_dalle_image, hasField]
  · intro env chatid text voice e h
    rcases env with ⟨sc, pe, fw, sv, rm, d⟩
    cases sc <;> cases fw <;> cases sv <;> cases rm <;>
      simp_all [generate_text_to_speech]
  · intro env chatid text voice n hsv hrm
    rcases env with ⟨sc, pe, fw, sv, rm, d⟩
    cases sc <;> cases fw <;>
      simp_all [generate_text_to_speech, hasField]
  · intro adminId dbOk target st
    by_cases h : (target == adminId) = true <;> cases dbOk <;>
      simp [disallow_chatid_to_chat_with_bot, h, hasField]
  · intro dbOk target caller st
    cases dbOk <;> simp [allow_chatid_to_chat_with_bot, hasField]
  · intro chatid amount date sd ed dbOk db
    by_cases h1 : (truthyNum amount && truthyStr date) = true <;>
      by_cases h2 : (truthyStr sd && truthyStr ed) = true <;>
      cases dbOk <;>
      simp [remove_expenses, h1, h2, hasField]

/-- A TTS environment whose Telegram voice send raises. -/
def ttsEnvSendFails : TtsEnv :=
  ⟨.ok (), false, .ok (), .error "connection reset", .ok (), "1"⟩

/-- A DALL-E environment whose image generation fails. -/
def dalleEnvGenFails : DalleEnv :=
  ⟨.error "rate limited", .ok (), false, .ok (), .ok (), .ok 200, "1"⟩

/-- Claim C4 counterexample: a failing Telegram voice send makes
generate_text_to_speech propagate the exception to the worker instead of
returning an error-status result; and render_dalle_image error results
carry no status field at all. -/
theorem tts_propagates_counterexample :
    (generate_text_to_speech ttsEnvSendFails "9" "hello" "onyx").1
      = .error "connection reset"
  ∧ hasField (render_dalle_image dalleEnvGenFails "a cat" "standard" "9").1
      "status" = false :=
  ⟨rfl, rfl⟩

/-- A TTS environment in which every external operation succeeds. -/
def ttsEnvAllOk : TtsEnv := ⟨.ok (), false, .ok (), .ok 200, .ok (), "1"⟩

/-- Witness for C4 at a concrete input: with a succeeding send and
removal, generate_text_to_speech returns an ok status result. -/
theorem handlers_result_discipline_witness :
    ttsEnvAllOk.sendVoice = .ok 200
  ∧ ∃ r, (generate_text_to_speech ttsEnvAllOk "9" "hi" "onyx").1 = .ok r
      ∧ hasField r "status" = true :=
  ⟨rfl, handlers_result_discipline.2.2.1 ttsEnvAllOk "9" "hi" "onyx" 200 rfl rfl⟩

/-! ## Claim C8 -/

/-- Claim C8 (amended): render_dalle_image refuses to overwrite — when
the target artifact path exists it returns an error result and never
opens the path for writing — but generate_text_to_speech performs no
existence check at all: it opens and writes its target path regardless
of whether the path already exists. -/
theorem artifact_overwrite_behavior :
    (∀ env prompt quality chatid, env.pathExists = true →
      hasField (render_dalle_image env prompt quality chatid).1 "error" = true
      ∧ (render_dalle_image env prompt quality chatid).2 = false)
  ∧ (∀ env chatid text voice, env.pathExists = true →
      env.speechCreate = .ok () →
      (generate_text_to_speech env chatid text voice).2 = true) := by
  constructor
  · intro env prompt quality chatid hpe
    rcases env with ⟨g, mk, pe, fw, dbi, sp, d⟩
    cases hpe
    cases g <;> cases mk <;>
      simp [render_dalle_image, hasField]
  · intro env chatid text voice hpe hsc
    rcases env with ⟨sc, pe, fw, sv, rm, d⟩
    cases hsc
    cases fw <;> cases sv <;> cases rm <;>
      simp [generate_text_to_speech]

/-- A TTS environment whose target path already exists and in which
every operation succeeds. -/
def ttsEnvPathExists : TtsEnv := ⟨.ok (), true, .ok (), .ok 200, .ok (), "2"⟩

/-- Claim C8 counterexample: with the TTS target path already present,
generate_text_to_speech still writes the file and returns a success
status, instead of returning an error and leaving the file alone. -/
theorem tts_overwrites_counterexample :
    ttsEnvPathExists.pathExists = true
  ∧ (generate_text_to_speech ttsEnvPathExists "9" "hi" "onyx").2 = true
  ∧ (generate_text_to_speech ttsEnvPathExists "9" "hi" "onyx").1
      = .ok [("status", "Generated TTS successfully and sent to user."),
             ("duration", "2")] :=
  ⟨rfl, rfl, rfl⟩

/-- A DALL-E environment whose target path already exists. -/
def dalleEnvPathExists : DalleEnv :=
  ⟨.ok "revised", .ok (), true, .ok (), .ok (), .ok 200, "1"⟩

/-- Witness for C8 at a concrete input: render_dalle_image returns an
error result for an existing path and does not open it for writing. -/
theorem artifact_overwrite_witness :
    dalleEnvPathExists.pathExists = true
  ∧ hasField (render_dalle_image dalleEnvPathExists "a cat" "hd" "9").1
      "error" = true
  ∧ (render_dalle_image dalleEnvPathExists "a cat" "hd" "9").2 = false :=
  ⟨rfl,
    (artifact_overwrite_behavior.1 dalleEnvPathExists "a cat" "hd" "9" rfl).1,
    (artifact_overwrite_behavior.1 dalleEnvPathExists "a cat" "hd" "9" rfl).2⟩

/-! ## Claim C9 -/

theorem filter_middle_false {α : Type} (p : α → Bool) (l1 l2 : List α) (a : α)
    (h : p a = false) :
    (l1 ++ a :: l2).filter p = (l1 ++ l2).filter p := by
  simp [List.filter_append, List.filter_cons, h]

/-- Claim C9: the item and expense operations of one conversation read
and delete only rows owned by that conversation: inserting a row owned
by a different conversation anywhere in the table changes neither the
results of show_items_list, retrieve_expenses and
retrieve_expense_categories, nor remove_expenses result; remove_expenses
leaves the caller-owned part of the table exactly as it would have been,
and every row of another conversation — including the inserted one — is
kept untouched. -/
theorem chat_isolation (c1 c2 : String) (h : c1 ≠ c2)
    (owner sd ed cat date rsd red : Option String) (amount : Option ℚ)
    (dbOk : Bool)
    (idb1 idb2 : List ItemRow) (ir : ItemRow) (hir : ir.chatid = c2)
    (edb1 edb2 : List ExpenseRow) (er : ExpenseRow) (her : er.chatid = c2) :
    (show_items_list owner c1 (idb1 ++ ir :: idb2)
      = show_items_list owner c1 (idb1 ++ idb2))
  ∧ (retrieve_expenses c1 sd ed cat (edb1 ++ er :: edb2)
      = retrieve_expenses c1 sd ed cat (edb1 ++ edb2))
  ∧ (retrieve_expense_categories c1 (edb1 ++ er :: edb2)
      = retrieve_expense_categories c1 (edb1 ++ edb2))
  ∧ ((remove_expenses c1 amount date rsd red dbOk (edb1 ++ er :: edb2)).1
      = (remove_expenses c1 amount date rsd red dbOk (edb1 ++ edb2)).1)
  ∧ ((remove_expenses c1 amount date rsd red dbOk (edb1 ++ er :: edb2)).2.filter
        (fun e => e.chatid == c1)
      = (remove_expenses c1 amount date rsd red dbOk (edb1 ++ edb2)).2.filter
        (fun e => e.chatid == c1))
  ∧ ((remove_expenses c1 amount date rsd red dbOk (edb1 ++ er :: edb2)).2.filter
        (fun e => !(e.chatid == c1))
      = (edb1 ++ er :: edb2).filter (fun e => !(e.chatid == c1))) := by
  have hcc : (c2 == c1) = false := beq_eq_false_iff_ne.mpr (fun hc => h hc.symm)
  have hpi : (ir.chatid == c1) = false := by rw [hir]; exact hcc
  have hpe : (er.chatid == c1) = false := by rw [her]; exact hcc
  refine ⟨?_, ?_, ?_, ?_, ?_, ?_⟩
  · unfold show_items_list
    split_ifs <;> exact filter_middle_false _ _ _ _ (by simp [hpi])
  · unfold retrieve_expenses
    split_ifs <;>
      exact congrArg (List.map _) (filter_middle_false _ _ _ _ (by simp [hpe]))
  · unfold retrieve_expense_categories
    exact congrArg distinctScan
      (congrArg (List.map _) (filter_middle_false _ _ _ _ (by simp [hpe])))
  · unfold remove_expenses
    split_ifs <;> rfl
  · unfold remove_expenses
    split_ifs <;>
      first
      | (rw [List.filter_filter, List.filter_filter]
         exact filter_middle_false _ _ _ _ (by simp [hpe]))
      | exact filter_middle_false _ _ _ _ (by simp [hpe])
  · unfold remove_expenses
    split_ifs <;>
      first
      | (rw [List.filter_filter]
         exact List.filter_congr (fun e _ => by
           cases hc : (e.chatid == c1) <;> simp [hc]))
      | rfl

/-- Witness for C9 at concrete inputs: a row owned by conversation c2
does not change what conversation c1 reads. -/
theorem chat_isolation_witness :
    ("c1" : String) ≠ "c2"
  ∧ show_items_list none "c1"
      ([⟨"c1", "lamp", "ann", 1⟩] ++ ⟨"c2", "rug", "bob", 2⟩ :: [])
      = show_items_list none "c1" ([⟨"c1", "lamp", "ann", 1⟩] ++ []) :=
  ⟨by decide,
    (chat_isolation "c1" "c2" (by decide) none none none none none none none
      none true [⟨"c1", "lamp", "ann", 1⟩] [] ⟨"c2", "rug", "bob", 2⟩ rfl
      [] [] ⟨"c2", 3, "misc", "2024-01-01", "x"⟩ rfl).1⟩

/-! ## Claims C1 and C2: the dispatch loop -/

/-- A call the dispatch loop can carry out: its name has an if/elif
branch that invokes the handler with correct arguments, its JSON
arguments parse, and its handler returns (rather than raises) the value
`respFn c`. -/
def goodDispatchCall (env : DispatchEnv) (respFn : ToolCall → String)
    (c : ToolCall) : Prop :=
  c.name ∈ dispatchChainNames ∧ c.argsValid = true
    ∧ env.handlerResult c = Except.ok (respFn c)

theorem chain_subset_avail :
    ∀ n ∈ dispatchChainNames, n ∈ availableFunctionNames := by decide

theorem chain_not_clear :
    ∀ n ∈ dispatchChainNames, n ≠ "clear_message_history" := by decide

theorem chain_not_promote :
    ∀ n ∈ dispatchChainNames, n ≠ "promote_user_to_admin" := by decide

theorem dispatch_good_step (env : DispatchEnv) (respFn : ToolCall → String)
    (c : ToolCall) (rest : List ToolCall) (st : DispatchState)
    (hc : goodDispatchCall env respFn c) :
    dispatchToolCalls env (c :: rest) st
      = dispatchToolCalls env rest
          ⟨st.history ++ [toolEntry c (respFn c)], st.executed ++ [c.callId],
           some (respFn c)⟩ := by
  obtain ⟨hchain, hargs, hok⟩ := hc
  have havail : c.name ∈ availableFunctionNames := chain_subset_avail _ hchain
  have hclear : ¬ c.name = "clear_message_history" := chain_not_clear _ hchain
  have hprom : ¬ c.name = "promote_user_to_admin" := chain_not_promote _ hchain
  simp only [dispatchToolCalls]
  rw [if_pos havail, if_pos hargs, if_neg hclear, if_neg hprom, if_pos hchain,
    hok]

theorem dispatch_clear_step (env : DispatchEnv) (cc : ToolCall)
    (rest : List ToolCall) (st : DispatchState)
    (hcc : cc.name = "clear_message_history") (hargs : cc.argsValid = true) :
    dispatchToolCalls env (cc :: rest) st
      = (⟨[], st.executed ++ [cc.callId], st.lastResponse⟩, .cleared) := by
  have havail : cc.name ∈ availableFunctionNames := by rw [hcc]; decide
  simp only [dispatchToolCalls]
  rw [if_pos havail, if_pos hargs, if_pos hcc]

theorem dispatch_unknown_step (env : DispatchEnv) (bad : ToolCall)
    (rest : List ToolCall) (st : DispatchState)
    (h : bad.name ∉ availableFunctionNames) :
    dispatchToolCalls env (bad :: rest) st
      = (st, .failed ("KeyError: " ++ bad.name)) := by
  simp only [dispatchToolCalls]
  rw [if_neg h]

theorem dispatch_handler_error_step (env : DispatchEnv) (bad : ToolCall)
    (rest : List ToolCall) (st : DispatchState) (e : String)
    (hchain : bad.name ∈ dispatchChainNames) (hargs : bad.argsValid = true)
    (herr : env.handlerResult bad = .error e) :
    dispatchToolCalls env (bad :: rest) st
      = (⟨st.history, st.executed ++ [bad.callId], st.lastResponse⟩,
         .failed e) := by
  have havail : bad.name ∈ availableFunctionNames := chain_subset_avail _ hchain
  have hclear : ¬ bad.name = "clear_message_history" := chain_not_clear _ hchain
  have hprom : ¬ bad.name = "promote_user_to_admin" := chain_not_promote _ hchain
  simp only [dispatchToolCalls]
  rw [if_pos havail, if_pos hargs, if_neg hclear, if_neg hprom, if_pos hchain,
    herr]

theorem dispatch_good_prefix (env : DispatchEnv) (respFn : ToolCall → String)
    (pre rest : List ToolCall) (st : DispatchState)
    (h : ∀ c ∈ pre, goodDispatchCall env respFn c) :
    dispatchToolCalls env (pre ++ rest) st
      = dispatchToolCalls env rest
          ⟨st.history ++ pre.map (fun c => toolEntry c (respFn c)),
           st.executed ++ pre.map (fun c => c.callId),
           pre.foldl (fun _ c => some (respFn c)) st.lastResponse⟩ := by
  induction pre generalizing st with
  | nil => simp
  | cons c pre ih =>
    rw [List.cons_append,
      dispatch_good_step env respFn c _ st (h c (List.mem_cons_self c pre)),
      ih _ (fun x hx => h x (List.mem_cons_of_mem c hx))]
    simp [List.append_assoc]

theorem dispatch_all_good (env : DispatchEnv) (respFn : ToolCall → String)
    (calls : List ToolCall) (st : DispatchState)
    (h : ∀ c ∈ calls, goodDispatchCall env respFn c) :
    dispatchToolCalls env calls st
      = (⟨st.history ++ calls.map (fun c => toolEntry c (respFn c)),
          st.executed ++ calls.map (fun c => c.callId),
          calls.foldl (fun _ c => some (respFn c)) st.lastResponse⟩,
         .completed) := by
  have hpre := dispatch_good_prefix env respFn calls [] st h
  rw [List.append_nil] at hpre
  rw [hpre]
  rfl

theorem processTurn_of_ne_nil (env : TurnEnv) (hist0 : List MessageEntry)
    (nowIso prompt ac : String) (calls : List ToolCall) (h : calls ≠ [])
    (hins : env.insert1 = .ok ()) :
    processTurn env hist0 nowIso prompt ac calls
      = turnFromDispatch env (dispatchToolCalls env.dispatch calls
          ⟨hist0 ++ [systemEntry nowIso, userEntry prompt, assistantEntry ac],
           [], none⟩) := by
  cases calls with
  | nil => exact absurd rfl h
  | cons c rest => simp [processTurn, hins]

/-- Claim C1 (amended): when a completion result contains a
clear_message_history call (with parseable arguments) and every call
before the first such call dispatches successfully, the worker empties
the conversation's message history, requests no follow-up completion,
appends no tool entry for the clear call or anything after it, executes
no remaining call, and sends exactly the fixed notice. -/
theorem clear_history_short_circuit (env : TurnEnv)
    (hist0 : List MessageEntry) (nowIso prompt ac : String)
    (respFn : ToolCall → String) (pre post : List ToolCall) (cc : ToolCall)
    (hpre : ∀ c ∈ pre, goodDispatchCall env.dispatch respFn c)
    (hcc : cc.name = "clear_message_history") (hargs : cc.argsValid = true)
    (hins : env.insert1 = .ok ()) :
    (processTurn env hist0 nowIso prompt ac (pre ++ cc :: post)).history = []
  ∧ (processTurn env hist0 nowIso prompt ac
      (pre ++ cc :: post)).followUpRequested = false
  ∧ (processTurn env hist0 nowIso prompt ac (pre ++ cc :: post)).sentMessage
      = some "Message history has been cleared!"
  ∧ (processTurn env hist0 nowIso prompt ac (pre ++ cc :: post)).executed
      = pre.map (fun c => c.callId) ++ [cc.callId] := by
  rw [processTurn_of_ne_nil env hist0 nowIso prompt ac _ (by simp) hins,
    dispatch_good_prefix env.dispatch respFn pre (cc :: post) _ hpre,
    dispatch_clear_step env.dispatch cc post _ hcc hargs]
  exact ⟨rfl, rfl, rfl, rfl⟩

/-- Claim C2 (amended): calls are processed in the order returned, and a
call the loop can dispatch contributes exactly its tool-role entry to
the history handed to the follow-up completion, with the follow-up then
requested.  But a per-call dispatch failure is not isolated: an unknown
tool name raises KeyError out of the loop — the turn aborts with no
entry for that call, the remaining calls never execute and no follow-up
is requested — and an exception escaping a handler aborts the turn the
same way after that handler ran. -/
theorem tool_dispatch_order_and_abort :
    (∀ (env : TurnEnv) (hist0 : List MessageEntry)
       (nowIso prompt ac : String) (respFn : ToolCall → String)
       (c : ToolCall) (rest : List ToolCall),
      (∀ x ∈ c :: rest, goodDispatchCall env.dispatch respFn x) →
      env.insert1 = .ok () →
      (processTurn env hist0 nowIso prompt ac (c :: rest)).followUpRequested
          = true
      ∧ (processTurn env hist0 nowIso prompt ac (c :: rest)).executed
          = (c :: rest).map (fun x => x.callId)
      ∧ (dispatchToolCalls env.dispatch (c :: rest)
            ⟨hist0 ++ [systemEntry nowIso, userEntry prompt, assistantEntry ac],
             [], none⟩).1.history
          = (hist0 ++ [systemEntry nowIso, userEntry prompt, assistantEntry ac])
            ++ (c :: rest).map (fun x => toolEntry x (respFn x)))
  ∧ (∀ (env : TurnEnv) (hist0 : List MessageEntry)
       (nowIso prompt ac : String) (respFn : ToolCall → String)
       (pre : List ToolCall) (bad : ToolCall) (post : List ToolCall),
      (∀ x ∈ pre, goodDispatchCall env.dispatch respFn x) →
      bad.name ∉ availableFunctionNames →
      env.insert1 = .ok () →
      (processTurn env hist0 nowIso prompt ac
          (pre ++ bad :: post)).followUpRequested = false
      ∧ (processTurn env hist0 nowIso prompt ac (pre ++ bad :: post)).executed
          = pre.map (fun x => x.callId)
      ∧ (processTurn env hist0 nowIso prompt ac (pre ++ bad :: post)).history
          = (hist0 ++ [systemEntry nowIso, userEntry prompt, assistantEntry ac])
            ++ pre.map (fun x => toolEntry x (respFn x))
      ∧ (processTurn env hist0 nowIso prompt ac
          (pre ++ bad :: post)).sentMessage
          = some ("...failed. Error: " ++ ("KeyError: " ++ bad.name)))
  ∧ (∀ (env : TurnEnv) (hist0 : List MessageEntry)
       (nowIso prompt ac : String) (respFn : ToolCall → String)
       (pre : List ToolCall) (bad : ToolCall) (post : List ToolCall)
       (e : String),
      (∀ x ∈ pre, goodDispatchCall env.dispatch respFn x) →
      bad.name ∈ dispatchChainNames → bad.argsValid = true →
      env.dispatch.handlerResult bad = .error e →
      env.insert1 = .ok () →
      (processTurn env hist0 nowIso prompt ac
          (pre ++ bad :: post)).followUpRequested = false
      ∧ (processTurn env hist0 nowIso prompt ac (pre ++ bad :: post)).executed
          = pre.map (fun x => x.callId) ++ [bad.callId]
      ∧ (processTurn env hist0 nowIso prompt ac (pre ++ bad :: post)).history
          = (hist0 ++ [systemEntry nowIso, userEntry prompt, assistantEntry ac])
            ++ pre.map (fun x => toolEntry x (respFn x))
      ∧ (processTurn env hist0 nowIso prompt ac
          (pre ++ bad :: post)).sentMessage
          = some ("...failed. Error: " ++ e)) := by
  refine ⟨?_, ?_, ?_⟩
  · intro env hist0 nowIso prompt ac respFn c rest hgood hins
    rw [processTurn_of_ne_nil env hist0 nowIso prompt ac _ (by simp) hins,
      dispatch_all_good env.dispatch respFn (c :: rest) _ hgood]
    refine ⟨?_, ?_, ?_⟩
    · cases hfu : env.followUp with
      | error e => simp [turnFromDispatch, hfu]
      | ok c2 => cases hi2 : env.insert2 <;> simp [turnFromDispatch, hfu, hi2]
    · cases hfu : env.followUp with
      | error e => simp [turnFromDispatch, hfu]
      | ok c2 => cases hi2 : env.insert2 <;> simp [turnFromDispatch, hfu, hi2]
    · simp
  · intro env hist0 nowIso prompt ac respFn pre bad post hgood hbad hins
    rw [processTurn_of_ne_nil env hist0 nowIso prompt ac _ (by simp) hins,
      dispatch_good_prefix env.dispatch respFn pre (bad :: post) _ hgood,
      dispatch_unknown_step env.dispatch bad post _ hbad]
    refine ⟨rfl, rfl, ?_, rfl⟩
    simp [turnFromDispatch]
  · intro env hist0 nowIso prompt ac respFn pre bad post e hgood hchain hargs
      herr hins
    rw [processTurn_of_ne_nil env hist0 nowIso prompt ac _ (by simp) hins,
      dispatch_good_prefix env.dispatch respFn pre (bad :: post) _ hgood,
      dispatch_handler_error_step env.dispatch bad post _ e hchain hargs herr]
    refine ⟨rfl, rfl, ?_, rfl⟩
    simp [turnFromDispatch]

/-- A dispatch environment whose every handler returns "handled". -/
def dispatchEnvTriv : DispatchEnv := ⟨fun _ => .ok "handled"⟩

/-- A turn environment in which completions, inserts and handlers all
succeed. -/
def turnEnvTriv : TurnEnv := ⟨dispatchEnvTriv, .ok (), .ok (), .ok "final reply"⟩

/-- Claim C1 counterexample: a completion result containing a
clear_message_history call, preceded by a call naming an unregistered
tool.  The KeyError on the first call aborts the whole turn: the clear
call never runs, history is not cleared, the fixed notice is not sent
(the generic failure notice is), and nothing is executed. -/
theorem clear_after_unknown_counterexample :
    (processTurn turnEnvTriv [] "2024-01-01T10:00:00" "hi" "using tools"
        [⟨"id1", "frobnicate", true⟩,
         ⟨"id2", "clear_message_history", true⟩]).sentMessage
      ≠ some "Message history has been cleared!"
  ∧ (processTurn turnEnvTriv [] "2024-01-01T10:00:00" "hi" "using tools"
        [⟨"id1", "frobnicate", true⟩,
         ⟨"id2", "clear_message_history", true⟩]).history ≠ []
  ∧ (processTurn turnEnvTriv [] "2024-01-01T10:00:00" "hi" "using tools"
        [⟨"id1", "frobnicate", true⟩,
         ⟨"id2", "clear_message_history", true⟩]).executed = [] := by
  decide

/-- Witness for C1 at a concrete input: with a successfully dispatched
call before it, a clear call empties history, sends the fixed notice and
skips the rest of the turn. -/
theorem clear_history_short_circuit_witness :
    turnEnvTriv.insert1 = .ok ()
  ∧ (processTurn turnEnvTriv [] "2024-01-01T10:00:00" "wipe it" "clearing"
        [⟨"b1", "add_expense", true⟩, ⟨"b2", "clear_message_history", true⟩,
         ⟨"b3", "add_expense", true⟩]).sentMessage
      = some "Message history has been cleared!"
  ∧ (processTurn turnEnvTriv [] "2024-01-01T10:00:00" "wipe it" "clearing"
        [⟨"b1", "add_expense", true⟩, ⟨"b2", "clear_message_history", true⟩,
         ⟨"b3", "add_expense", true⟩]).history = [] := by
  have h := clear_history_short_circuit turnEnvTriv [] "2024-01-01T10:00:00"
    "wipe it" "clearing" (fun _ => "handled") [⟨"b1", "add_expense", true⟩]
    [⟨"b3", "add_expense", true⟩] ⟨"b2", "clear_message_history", true⟩
    (by
      intro c hc
      simp only [List.mem_singleton] at hc
      subst hc
      exact ⟨by decide, rfl, rfl⟩)
    rfl rfl rfl
  exact ⟨rfl, h.2.2.1, h.1⟩

/-- Claim C2 counterexample: a completion result carrying two tool calls
whose first names an unregistered tool.  The claim requires the second
call to still execute and both calls to get tool-role entries; instead
the turn aborts with nothing executed, no tool entry in the history, and
no follow-up. -/
theorem unknown_tool_aborts_counterexample :
    (processTurn turnEnvTriv [] "2024-01-01T10:00:00" "hi" "using tools"
        [⟨"id1", "frobnicate", true⟩, ⟨"id2", "add_expense", true⟩]).executed
      = []
  ∧ ((processTurn turnEnvTriv [] "2024-01-01T10:00:00" "hi" "using tools"
        [⟨"id1", "frobnicate", true⟩,
         ⟨"id2", "add_expense", true⟩]).history.filter
        (fun m => m.role == "tool")) = []
  ∧ (processTurn turnEnvTriv [] "2024-01-01T10:00:00" "hi" "using tools"
        [⟨"id1", "frobnicate", true⟩,
         ⟨"id2", "add_expense", true⟩]).followUpRequested = false := by
  decide

/-- Witness for C2 at a concrete input: two dispatchable calls execute
in order and the follow-up completion is requested. -/
theorem tool_dispatch_order_witness :
    turnEnvTriv.insert1 = .ok ()
  ∧ (processTurn turnEnvTriv [] "2024-01-01T10:00:00" "hi" "using tools"
        [⟨"a1", "add_expense", true⟩, ⟨"a2", "show_items_list", true⟩]).executed
      = ["a1", "a2"]
  ∧ (processTurn turnEnvTriv [] "2024-01-01T10:00:00" "hi" "using tools"
        [⟨"a1", "add_expense", true⟩,
         ⟨"a2", "show_items_list", true⟩]).followUpRequested = true := by
  have h := tool_dispatch_order_and_abort.1 turnEnvTriv [] "2024-01-01T10:00:00"
    "hi" "using tools" (fun _ => "handled") ⟨"a1", "add_expense", true⟩
    [⟨"a2", "show_items_list", true⟩]
    (by
      intro x hx
      simp only [List.mem_cons, List.not_mem_nil, or_false] at hx
      rcases hx with rfl | rfl
      · exact ⟨by decide, rfl, rfl⟩
      · exact ⟨by decide, rfl, rfl⟩)
    rfl
  exact ⟨rfl, h.2.1, h.1⟩

/-! ## Claim C7: the image-retention sweep -/

/-- The non-soft-deleted rows a conversation owns, in table order. -/
def liveOfChat (c : String) (db : List ImageRow) : List ImageRow :=
  db.filter (fun r => r.timestamp_deleted.isNone && r.chatid == c)

theorem mark_filter_char (P : ImageRow → Bool) (now c : String)
    (db : List ImageRow) :
    liveOfChat c (db.map (fun r => if P r then markDeleted now r else r))
      = (liveOfChat c db).filter (fun r => !(P r)) := by
  induction db with
  | nil => rfl
  | cons a l ih =>
    simp only [liveOfChat] at ih ⊢
    by_cases hP : P a = true
    · rw [List.map_cons, if_pos hP, List.filter_cons,
        if_neg (by simp [markDeleted])]
      by_cases hqa : (a.timestamp_deleted.isNone && (a.chatid == c)) = true
      · rw [List.filter_cons, if_pos hqa, List.filter_cons,
          if_neg (by simp [hP])]
        exact ih
      · rw [List.filter_cons, if_neg hqa]
        exact ih
    · rw [List.map_cons, if_neg hP]
      by_cases hqa : (a.timestamp_deleted.isNone && (a.chatid == c)) = true
      · rw [List.filter_cons, if_pos hqa, List.filter_cons, if_pos hqa,
          List.filter_cons, if_pos (by simp [hP]), ih]
      · rw [List.filter_cons, if_neg hqa, List.filter_cons, if_neg hqa]
        exact ih

theorem chatidImagesOf_nonDeleted (db : List ImageRow) (c : String) :
    chatidImagesOf (nonDeletedImages db) c = liveOfChat c db := by
  simp only [chatidImagesOf, nonDeletedImages, liveOfChat, List.filter_filter]
  exact List.filter_congr (fun x _ => Bool.and_comm _ _)

theorem sweep_live_char (removeOk updateOk : Nat → Bool) (now c : String)
    (db : List ImageRow)
    (hrm : ∀ n, removeOk n = true) (hup : ∀ n, updateOk n = true) :
    liveOfChat c (sweepImagesOnce removeOk updateOk now db)
      = (liveOfChat c db).filter
          (fun r => !(decide (r ∈ imagesToRemove (nonDeletedImages db) c))) := by
  simp only [sweepImagesOnce]
  rw [mark_filter_char (fun r =>
    decide (r ∈ imagesToRemove (nonDeletedImages db) r.chatid)
      && removeOk r.id && updateOk r.id) now c db]
  apply List.filter_congr
  intro x hx
  simp only [liveOfChat] at hx
  have hx2 := (List.mem_filter.mp hx).2
  simp only [Bool.and_eq_true] at hx2
  rw [eq_of_beq hx2.2, hrm x.id, hup x.id]
  simp

theorem countP_not_mem_take_le {α : Type} [DecidableEq α] (l : List α) (k : Nat) :
    List.countP (fun r => !(decide (r ∈ l.take k))) l ≤ l.length - k := by
  have h := List.take_append_drop k l
  calc List.countP (fun r => !(decide (r ∈ l.take k))) l
      = List.countP (fun r => !(decide (r ∈ l.take k))) (l.take k ++ l.drop k) := by
        rw [h]
    _ = List.countP (fun r => !(decide (r ∈ l.take k))) (l.take k)
        + List.countP (fun r => !(decide (r ∈ l.take k))) (l.drop k) :=
        List.countP_append _ _ _
    _ = 0 + List.countP (fun r => !(decide (r ∈ l.take k))) (l.drop k) := by
        rw [List.countP_eq_zero.mpr]
        intro a ha
        simp [ha]
    _ ≤ 0 + (l.drop k).length := by
        apply Nat.add_le_add_left
        rw [List.countP_eq_length_filter]
        exact List.length_filter_le _ _
    _ = l.length - k := by
        rw [List.length_drop]
        omega

theorem sweep_live_le (removeOk updateOk : Nat → Bool) (now c : String)
    (db : List ImageRow)
    (hrm : ∀ n, removeOk n = true) (hup : ∀ n, updateOk n = true) :
    (liveOfChat c (sweepImagesOnce removeOk updateOk now db)).length
      ≤ IMAGES_TO_KEEP_PER_CHATID := by
  rw [sweep_live_char removeOk updateOk now c db hrm hup]
  simp only [imagesToRemove, chatidImagesOf_nonDeleted]
  have h10 : IMAGES_TO_KEEP_PER_CHATID = 10 := rfl
  by_cases hlen : IMAGES_TO_KEEP_PER_CHATID < (liveOfChat c db).length
  · rw [if_pos hlen, ← List.countP_eq_length_filter,
      List.Perm.countP_eq _ (List.perm_insertionSort
        (fun a b : ImageRow => a.id ≤ b.id) (liveOfChat c db)).symm]
    have hbound := countP_not_mem_take_le
      ((liveOfChat c db).insertionSort (fun a b => a.id ≤ b.id))
      ((liveOfChat c db).length - IMAGES_TO_KEEP_PER_CHATID)
    have hlsort : ((liveOfChat c db).insertionSort
        (fun a b => a.id ≤ b.id)).length = (liveOfChat c db).length :=
      (List.perm_insertionSort _ _).length_eq
    omega
  · rw [if_neg hlen]
    have hfix : (liveOfChat c db).filter
        (fun r => !(decide (r ∈ ([] : List ImageRow))))
        = (liveOfChat c db).filter (fun _ => true) :=
      List.filter_congr (fun x _ => by simp)
    rw [hfix, List.filter_true]
    omega

theorem sweep_removes_oldest (removeOk updateOk : Nat → Bool) (now c : String)
    (db : List ImageRow)
    (hrm : ∀ n, removeOk n = true) (hup : ∀ n, updateOk n = true) :
    ∀ r ∈ imagesToRemove (nonDeletedImages db) c,
      ∀ s ∈ liveOfChat c (sweepImagesOnce removeOk updateOk now db),
        r.id ≤ s.id := by
  intro r hr s hs
  rw [sweep_live_char removeOk updateOk now c db hrm hup] at hs
  rcases List.mem_filter.mp hs with ⟨hsl, hsp⟩
  simp only [imagesToRemove, chatidImagesOf_nonDeleted] at hr hsp
  by_cases hlen : IMAGES_TO_KEEP_PER_CHATID < (liveOfChat c db).length
  · rw [if_pos hlen] at hr hsp
    have hsorted : List.Sorted (fun a b : ImageRow => a.id ≤ b.id)
        ((liveOfChat c db).insertionSort (fun a b => a.id ≤ b.id)) :=
      List.sorted_insertionSort _ _
    have hsmem : s ∈ (liveOfChat c db).insertionSort
        (fun a b => a.id ≤ b.id) :=
      ((List.perm_insertionSort (fun a b : ImageRow => a.id ≤ b.id)
        (liveOfChat c db)).mem_iff).mpr hsl
    have hsplit := List.take_append_drop
      ((liveOfChat c db).length - IMAGES_TO_KEEP_PER_CHATID)
      ((liveOfChat c db).insertionSort (fun a b => a.id ≤ b.id))
    rw [← hsplit] at hsmem hsorted
    rcases List.mem_append.mp hsmem with hstk | hsdr
    · exact absurd (by simpa using hstk) (by simpa using hsp)
    · exact ((List.pairwise_append.mp hsorted).2.2 r hr s hsdr)
  · rw [if_neg hlen] at hr
    exact absurd hr (List.not_mem_nil r)

/-- Claim C7 (amended): after a sweep cycle in which every file removal
and every soft-delete UPDATE succeeds, each conversation retains at most
IMAGES_TO_KEEP_PER_CHATID non-soft-deleted image rows, and every row the
cycle soft-deletes is at least as old (by id, the creation order) as
every surviving row of its conversation.  Per-row failures are isolated,
not aborting: an excess row whose removal and UPDATE succeed is
soft-deleted regardless of the other rows' outcomes, while a row whose
file removal fails is left untouched — so after such a cycle the
retention bound can remain exceeded. -/
theorem sweep_retention_and_tolerance :
    (∀ (removeOk updateOk : Nat → Bool) (now c : String) (db : List ImageRow),
      (∀ n, removeOk n = true) → (∀ n, updateOk n = true) →
      (liveOfChat c (sweepImagesOnce removeOk updateOk now db)).length
          ≤ IMAGES_TO_KEEP_PER_CHATID
      ∧ (∀ r ∈ imagesToRemove (nonDeletedImages db) c,
          ∀ s ∈ liveOfChat c (sweepImagesOnce removeOk updateOk now db),
            r.id ≤ s.id))
  ∧ (∀ (removeOk updateOk : Nat → Bool) (now : String) (db : List ImageRow)
       (r : ImageRow), r ∈ db →
      r ∈ imagesToRemove (nonDeletedImages db) r.chatid →
      removeOk r.id = true → updateOk r.id = true →
      markDeleted now r ∈ sweepImagesOnce removeOk updateOk now db)
  ∧ (∀ (removeOk updateOk : Nat → Bool) (now : String) (db : List ImageRow)
       (r : ImageRow), r ∈ db →
      removeOk r.id = false →
      r ∈ sweepImagesOnce removeOk updateOk now db) := by
  refine ⟨?_, ?_, ?_⟩
  · intro removeOk updateOk now c db hrm hup
    exact ⟨sweep_live_le removeOk updateOk now c db hrm hup,
      sweep_removes_oldest removeOk updateOk now c db hrm hup⟩
  · intro removeOk updateOk now db r hmem hex hrm hup
    have := List.mem_map_of_mem (fun r : ImageRow =>
      if decide (r ∈ imagesToRemove (nonDeletedImages db) r.chatid)
          && removeOk r.id && updateOk r.id then markDeleted now r else r) hmem
    simpa [sweepImagesOnce, hex, hrm, hup] using this
  · intro removeOk updateOk now db r hmem hrm
    have := List.mem_map_of_mem (fun r : ImageRow =>
      if decide (r ∈ imagesToRemove (nonDeletedImages db) r.chatid)
          && removeOk r.id && updateOk r.id then markDeleted now r else r) hmem
    simpa [sweepImagesOnce, hrm] using this

/-- Twelve non-deleted image rows all owned by conversation c. -/
def sweepDb12 : List ImageRow :=
  [⟨1, "c", "f1.png", none⟩, ⟨2, "c", "f2.png", none⟩,
   ⟨3, "c", "f3.png", none⟩, ⟨4, "c", "f4.png", none⟩,
   ⟨5, "c", "f5.png", none⟩, ⟨6, "c", "f6.png", none⟩,
   ⟨7, "c", "f7.png", none⟩, ⟨8, "c", "f8.png", none⟩,
   ⟨9, "c", "f9.png", none⟩, ⟨10, "c", "f10.png", none⟩,
   ⟨11, "c", "f11.png", none⟩, ⟨12, "c", "f12.png", none⟩]

/-- An os.remove outcome that fails exactly for the image with id 1. -/
def sweepRemoveFailsOn1 : Nat → Bool := fun n => !(n == 1)

/-- Claim C7 counterexample: with twelve non-deleted rows and the file
removal of the oldest row (id 1) failing, the sweep soft-deletes only
row 2 — the failure skips row 1's soft-delete — so the conversation
still holds 11 > 10 non-soft-deleted rows after the cycle, violating
the claimed retention bound (while the loop did continue past the
failure, as row 2's soft-deletion shows). -/
theorem sweep_retention_counterexample :
    ¬ ((liveOfChat "c" (sweepImagesOnce sweepRemoveFailsOn1 (fun _ => true)
        "T" sweepDb12)).length ≤ IMAGES_TO_KEEP_PER_CHATID)
  ∧ (liveOfChat "c" (sweepImagesOnce sweepRemoveFailsOn1 (fun _ => true)
      "T" sweepDb12)).length = 11
  ∧ (⟨2, "c", "f2.png", some "T"⟩ : ImageRow)
      ∈ sweepImagesOnce sweepRemoveFailsOn1 (fun _ => true) "T" sweepDb12 := by
  decide

/-- Witness for C7 at a concrete input: with all removals succeeding,
the sweep brings conversation c down to the retention bound. -/
theorem sweep_retention_witness :
    ((fun _ : Nat => true) 0 = true)
  ∧ (liveOfChat "c" (sweepImagesOnce (fun _ => true) (fun _ => true)
      "T" sweepDb12)).length ≤ IMAGES_TO_KEEP_PER_CHATID :=
  ⟨rfl, (sweep_retention_and_tolerance.1 (fun _ => true) (fun _ => true)
    "T" "c" sweepDb12 (fun _ => rfl) (fun _ => rfl)).1⟩

end Chatbot
